import Mathlib

/-!
Shallow embedding of the restic-ez program (src/restic-ez.py) and proofs of
the specification claims about it.

The program is a thin orchestration wrapper: it loads a JSON configuration,
resolves secret fields, derives a process environment, builds restic command
lines, and sequences the restore workflow.  External collaborators (the
subprocess runner, the `dialog` binary, `json.loads`/`json.dumps`, the
filesystem and the OS environment) are modelled as explicit inputs; the logic
of the program itself is embedded as executable Lean functions below.
-/

namespace ResticEz

/-- JSON-like values as they occur in the restic-ez configuration document:
strings, arrays of strings (the per-context flag sequences), and objects.
The configuration schema of the program uses no other JSON shapes. -/
inductive JVal where
  | str (s : String)
  | arr (xs : List String)
  | obj (kvs : List (String × JVal))
deriving Repr

/-- Association-list lookup, modelling Python dict indexing and the
membership operator; Python dict keys are unique, so first match suffices. -/
def findKey {β : Type} : List (String × β) → String → Option β
  | [], _ => none
  | (k, v) :: rest, key => if k = key then some v else findKey rest key

/-- Association-list update, modelling Python dict assignment: an existing key
keeps its position, a new key is appended (insertion order semantics). -/
def setKey : List (String × JVal) → String → JVal → List (String × JVal)
  | [], key, v => [(key, v)]
  | (k, w) :: rest, key, v =>
      if k = key then (key, v) :: rest else (k, w) :: setKey rest key v

/-- Python exceptions that the embedded code paths can raise. -/
inductive PyError where
  | keyError (key : String)
  | typeError
  | nameError (name : String)
  | fileNotFoundError (path : String)
  | jsonDecodeError
  | runtimeError (msg : String)
  | calledProcessError
  | indexError
deriving Repr, DecidableEq

/-- Python subscript `doc[k]` on a configuration value: KeyError when the key
is missing, TypeError when the value is not an object. -/
def getItem : JVal → String → Except PyError JVal
  | .obj kvs, k =>
      match findKey kvs k with
      | some v => .ok v
      | none => .error (.keyError k)
  | _, _ => .error .typeError

/-- Two-level lookup `doc[sec][name]` as a partial read (used to state
invariants about the configuration document). -/
def getPath : JVal → String → String → Option JVal
  | .obj kvs, sec, name =>
      match findKey kvs sec with
      | some (.obj skvs) => findKey skvs name
      | _ => none
  | _, _, _ => none

/-- True when an optional configuration value is absent or a string literal.
Used as the well-formedness hypothesis matching the data model, under which
the secret fields are typed as strings. -/
def isStrOpt : Option JVal → Bool
  | none => true
  | some (.str _) => true
  | some _ => false

/-- Observable side effects of configuration resolution. -/
inductive Event where
  | shellCmd (command : String)
  | inputDialog (message : String)
deriving Repr, DecidableEq

/-- External collaborators used during secret resolution.
`shellOutput cmd` is the raw stdout of `Command(cmd).capture(shell=True)`
before trimming, with `none` modelling a non-zero exit
(`subprocess.CalledProcessError`).  `userInput msg` is the result of
`Dialog.input msg`, with `none` modelling a cancelled dialog (the source
raises RuntimeError "Action cancelled by user"). -/
structure Ext where
  shellOutput : String → Option String
  userInput : String → Option String

namespace Config

/-- Embedding of `Config._eval_field(section, name)` from src/restic-ez.py
lines 124-132: if the literal field is present the document is unchanged; else
if the `<name>_command` entry exists that shell command is executed and its
trimmed stdout stored; else the value is requested via one input dialog.
The returned event list records the external interactions performed. -/
def eval_field (ext : Ext) : JVal → String → String → Except PyError (JVal × List Event)
  | .obj kvs, sec, name =>
    match findKey kvs sec with
    | some (.obj skvs) =>
      if (findKey skvs name).isSome then
        .ok (.obj kvs, [])
      else
        match findKey skvs (name ++ "_command") with
        | some (.str cmd) =>
          match ext.shellOutput cmd with
          | some out =>
              .ok (.obj (setKey kvs sec (.obj (setKey skvs name (.str out.trim)))),
                   [.shellCmd cmd])
          | none => .error .calledProcessError
        | some _ => .error .typeError
        | none =>
          match ext.userInput ("Enter value for \"" ++ sec ++ "->" ++ name ++ "\":") with
          | some v =>
              .ok (.obj (setKey kvs sec (.obj (setKey skvs name (.str v)))),
                   [.inputDialog ("Enter value for \"" ++ sec ++ "->" ++ name ++ "\":")])
          | none => .error (.runtimeError "Action cancelled by user")
    | some _ => .error .typeError
    | none => .error (.keyError sec)
  | _, _, _ => .error .typeError

/-- The two secret-resolution calls performed at the end of `Config.__init__`
(src lines 98-100): first `restic.pass`, then `s3.pass`. -/
def resolveSecrets (ext : Ext) (doc : JVal) : Except PyError (JVal × List Event) :=
  match eval_field ext doc "restic" "pass" with
  | .error e => .error e
  | .ok (d1, e1) =>
    match eval_field ext d1 "s3" "pass" with
    | .error e => .error e
    | .ok (d2, e2) => .ok (d2, e1 ++ e2)

/-- The ambient world read by `Config.__init__` while locating the raw
configuration document: the OS environment, the filesystem (path to file
contents, `none` modelling FileNotFoundError), the module-global variables
holding JSON strings, and `json.loads` modelled abstractly as an external
library function (`none` modelling a JSONDecodeError). -/
structure LoadCtx where
  environ : List (String × String)
  fileContents : String → Option String
  globalVars : List (String × String)
  jsonLoads : String → Option JVal

/-- Embedding of the source-selection part of `Config.__init__`
(src lines 86-96), called with its default parameters
env_json="RESTIC_EZ_CONFIG", env_file="RESTIC_EZ_CONFIG_FILE", var="CONFIG".
Two branches reproduce defects present in the source:
the first branch evaluates `os.environ[env]` where the local name `env` is
unbound (the parameter is named `env_json`), so reaching it raises
`NameError: name 'env' is not defined` before anything is parsed; the second
branch calls `open(env_file)`, i.e. opens the literal relative path
"RESTIC_EZ_CONFIG_FILE", not the path stored in that environment variable. -/
def loadSource (ctx : LoadCtx) : Except PyError JVal :=
  if (findKey ctx.environ "RESTIC_EZ_CONFIG").isSome then
    .error (.nameError "env")
  else if (findKey ctx.environ "RESTIC_EZ_CONFIG_FILE").isSome then
    match ctx.fileContents "RESTIC_EZ_CONFIG_FILE" with
    | none => .error (.fileNotFoundError "RESTIC_EZ_CONFIG_FILE")
    | some s =>
      match ctx.jsonLoads s with
      | none => .error .jsonDecodeError
      | some v => .ok v
  else
    match findKey ctx.globalVars "CONFIG" with
    | some s =>
      match ctx.jsonLoads s with
      | none => .error .jsonDecodeError
      | some v => .ok v
    | none => .error (.runtimeError "No configuration in environment or global namespace")

/-- Embedding of the whole `Config.__init__`: locate the raw document, then
resolve the two secret fields. -/
def init (ctx : LoadCtx) (ext : Ext) : Except PyError (JVal × List Event) :=
  match loadSource ctx with
  | .error e => .error e
  | .ok doc => resolveSecrets ext doc

/-- Embedding of `Config.get_directory`. -/
def get_directory (doc : JVal) : Except PyError JVal :=
  getItem doc "directory"

/-- Embedding of `Config.get_restic_flags(context)` (src lines 106-111):
return the stored `flags_<context>` entry of the restic section when present,
and the empty list otherwise. -/
def get_restic_flags (doc : JVal) (context : String) : Except PyError JVal :=
  match getItem doc "restic" with
  | .error e => .error e
  | .ok (.obj skvs) =>
    match findKey skvs ("flags_" ++ context) with
    | some v => .ok v
    | none => .ok (.arr [])
  | .ok _ => .error .typeError

/-- Embedding of `Config.env` (src lines 113-122), with `json.dumps` passed
in as the abstract serializer `dumps`.  A pure function of the document: it
returns exactly the six fixed keys, in the order of the source dict literal,
and touches nothing else. -/
def env (dumps : JVal → String) (doc : JVal) : Except PyError (List (String × JVal)) :=
  match getItem doc "directory" with
  | .error e => .error e
  | .ok dir =>
    match getItem doc "restic" with
    | .error e => .error e
    | .ok restic =>
      match getItem restic "pass" with
      | .error e => .error e
      | .ok rpass =>
        match getItem restic "repo" with
        | .error e => .error e
        | .ok rrepo =>
          match getItem doc "s3" with
          | .error e => .error e
          | .ok s3 =>
            match getItem s3 "user" with
            | .error e => .error e
            | .ok s3user =>
              match getItem s3 "pass" with
              | .error e => .error e
              | .ok s3pass =>
                .ok [("RESTIC_EZ_CONFIG", .str (dumps doc)),
                     ("DIRECTORY", dir),
                     ("RESTIC_PASSWORD", rpass),
                     ("RESTIC_REPOSITORY", rrepo),
                     ("AWS_ACCESS_KEY_ID", s3user),
                     ("AWS_SECRET_ACCESS_KEY", s3pass)]

end Config

/-- An archive record as parsed from the structured listing output of the
backup tool (`Restic._list`). -/
structure Archive where
  id : String
  time : String
  tags : List String
deriving Repr, DecidableEq

/-- Comparison used by the sort in `Restic.restore`: ascending by the
creation-timestamp string (Python key-based sort on `a["time"]`). -/
def timeLe (a b : Archive) : Bool :=
  decide (a.time ≤ b.time)

/-- The id-selection logic of `Restic.restore` when no id is given
(src lines 165-169): drop every archive whose tag list contains "snapshot",
stable-sort the rest ascending by timestamp, take the id of the last element.
On an empty filtered list the subscript `archives[-1]` raises IndexError;
this failure is what the specification names NoArchiveError. -/
def selectLatest (archives : List Archive) : Except PyError String :=
  match ((archives.filter fun a => !(decide ("snapshot" ∈ a.tags))).mergeSort timeLe).getLast? with
  | some a => .ok a.id
  | none => .error .indexError

/-- The restic restore command line assembled by `Restic.restore`
(src lines 172-177). -/
def restoreArgv (flags : List String) (tmpdir id : String) : List String :=
  ["restic", "restore", "--target", tmpdir] ++ flags ++ [id]

namespace Restic

/-- Embedding of `Restic.restore(tmpdir, id)` (src lines 162-178), returning
the list of restore command lines issued together with an error when one is
raised.  `flags` is the configured restore flag set and `archives` is the
parsed result of the `Restic._list` call performed when `id` is omitted. -/
def restore (flags : List String) (tmpdir : String) (id? : Option String)
    (archives : List Archive) : List (List String) × Option PyError :=
  match id? with
  | some i => ([restoreArgv flags tmpdir i], none)
  | none =>
    match selectLatest archives with
    | .ok i => ([restoreArgv flags tmpdir i], none)
    | .error e => ([], some e)

end Restic

/-- Observable steps of the restore workflow (the `restore()` function at
src lines 246-266). -/
inductive WEvent where
  | infoDialog (msg : String)
  | resticCreate (tags : List String)
  | confirmDialog (question : String)
  | rmtree (path : String)
  | resticRestore (target : String) (id : String)
  | move (src : String) (dst : String)
deriving Repr, DecidableEq

/-- The ambient world of one run of the restore workflow: whether the managed
directory exists, the answer given to the delete confirmation dialog, the
archives the repository reports, and whether the backup and restore
invocations of the external tool exit successfully. -/
structure RestoreCtx where
  dirExists : Bool
  confirmDelete : Bool
  archives : List Archive
  createOk : Bool
  restoreOk : Bool

/-- Outcome of a workflow run: the trace of observable steps in order, and
the raised error when the run aborts. -/
structure WResult where
  trace : List WEvent
  err : Option PyError
deriving Repr, DecidableEq

/-- The unconditional tail of the restore workflow (src lines 259-266):
restore the latest archive into the staging path formed by appending
".restic-restore" to the managed directory path, then move the restored
subtree into place and remove the staging tree. -/
def restoreTail (dir : String) (ctx : RestoreCtx) : WResult :=
  let t1 := [WEvent.infoDialog "Restoring latest archive (this may take some time)..."]
  match selectLatest ctx.archives with
  | .error e => ⟨t1, some e⟩
  | .ok i =>
    let t2 := t1 ++ [WEvent.resticRestore (dir ++ ".restic-restore") i]
    if ctx.restoreOk then
      ⟨t2 ++ [WEvent.infoDialog "Moving restored directory into final location...",
              WEvent.move (dir ++ ".restic-restore/" ++ dir) dir,
              WEvent.rmtree (dir ++ ".restic-restore")], none⟩
    else ⟨t2, some .calledProcessError⟩

/-- Embedding of the `restore()` workflow (src lines 246-266) over a loaded
configuration whose managed directory is `dir`: when the directory exists,
first create an archive tagged "snapshot", then ask for confirmation and
delete the directory; declining raises RuntimeError "Action cancelled by
user" (the failure the specification names UserCancelledError); when the
directory is absent, proceed directly to the restore-and-relocate tail. -/
def restoreWorkflow (dir : String) (ctx : RestoreCtx) : WResult :=
  if ctx.dirExists then
    let t1 := [WEvent.infoDialog "Creating snapshot archive...",
               WEvent.resticCreate ["snapshot"]]
    if ctx.createOk then
      let t2 := t1 ++ [WEvent.confirmDialog ("Delete \"" ++ dir ++ "\"?")]
      if ctx.confirmDelete then
        let tail := restoreTail dir ctx
        ⟨t2 ++ [WEvent.rmtree dir] ++ tail.trace, tail.err⟩
      else ⟨t2, some (.runtimeError "Action cancelled by user")⟩
    else ⟨t1, some .calledProcessError⟩
  else restoreTail dir ctx

/-! ### Helper lemmas -/

/-- Updating a key makes it the stored value. -/
theorem findKey_setKey_self (kvs : List (String × JVal)) (k : String) (v : JVal) :
    findKey (setKey kvs k v) k = some v := by
  induction kvs with
  | nil => simp [setKey, findKey]
  | cons hd tl ih =>
    obtain ⟨k0, v0⟩ := hd
    by_cases h : k0 = k
    · subst h
      simp [setKey, findKey]
    · simp [setKey, findKey, h, ih]

/-- Updating one key leaves every other key unchanged. -/
theorem findKey_setKey_ne (kvs : List (String × JVal)) (k k2 : String) (v : JVal)
    (h : k ≠ k2) : findKey (setKey kvs k v) k2 = findKey kvs k2 := by
  induction kvs with
  | nil => simp [setKey, findKey, h]
  | cons hd tl ih =>
    obtain ⟨k0, v0⟩ := hd
    by_cases h0 : k0 = k
    · subst h0
      simp [setKey, findKey, h]
    · by_cases h2 : k0 = k2
      · subst h2
        simp [setKey, findKey, h0]
      · simp [setKey, findKey, h0, h2, ih]

/-- In a pairwise-related list, every element is the last element or relates
to it. -/
theorem pairwise_last_rel {α : Type _} {R : α → α → Prop} (l : List α) (a : α)
    (hp : l.Pairwise R) (h : l.getLast? = some a) : ∀ b ∈ l, b = a ∨ R b a := by
  induction l with
  | nil => simp at h
  | cons x xs ih =>
    cases xs with
    | nil =>
      simp at h
      intro b hb
      simp at hb
      subst hb
      subst h
      exact Or.inl rfl
    | cons y ys =>
      rw [List.getLast?_cons_cons] at h
      rcases List.pairwise_cons.mp hp with ⟨hx, hp2⟩
      intro b hb
      rcases List.mem_cons.mp hb with hbx | hby
      · subst hbx
        exact Or.inr (hx a (List.mem_of_getLast?_eq_some h))
      · exact ih hp2 h b hby

/-- The comparison of `selectLatest` is transitive. -/
theorem timeLe_trans (a b c : Archive) (h1 : timeLe a b) (h2 : timeLe b c) :
    timeLe a c := by
  simp only [timeLe, decide_eq_true_eq] at h1 h2 ⊢
  exact le_trans h1 h2

/-- The comparison of `selectLatest` is total. -/
theorem timeLe_total (a b : Archive) : timeLe a b || timeLe b a := by
  simp only [timeLe, Bool.or_eq_true, decide_eq_true_eq]
  exact le_total a.time b.time

/-- Characterization of the archive id selected by `selectLatest`: it is the
id of an archive of the input that is not tagged "snapshot" and whose
timestamp is greatest among all archives not tagged "snapshot". -/
theorem selectLatest_spec (archives : List Archive) (i : String)
    (h : selectLatest archives = .ok i) :
    ∃ a ∈ archives, a.id = i ∧ "snapshot" ∉ a.tags ∧
      ∀ b ∈ archives, "snapshot" ∉ b.tags → b.time ≤ a.time := by
  unfold selectLatest at h
  cases hlast : ((archives.filter (fun a => !(decide ("snapshot" ∈ a.tags)))).mergeSort timeLe).getLast? with
  | none =>
    rw [hlast] at h
    simp at h
  | some a =>
    rw [hlast] at h
    have hid : a.id = i := by
      simpa using h
    have hperm : List.Perm
        ((archives.filter (fun a => !(decide ("snapshot" ∈ a.tags)))).mergeSort timeLe)
        (archives.filter (fun a => !(decide ("snapshot" ∈ a.tags)))) :=
      List.mergeSort_perm _ timeLe
    have hmem : a ∈ archives.filter (fun a => !(decide ("snapshot" ∈ a.tags))) :=
      hperm.mem_iff.mp (List.mem_of_getLast?_eq_some hlast)
    have hmem2 := List.mem_filter.mp hmem
    have hpw : ((archives.filter (fun a => !(decide ("snapshot" ∈ a.tags)))).mergeSort
        timeLe).Pairwise (fun x y => timeLe x y = true) :=
      List.sorted_mergeSort timeLe_trans timeLe_total _
    refine ⟨a, hmem2.1, hid, by simpa using hmem2.2, ?_⟩
    intro b hb hbtags
    have hbf : b ∈ archives.filter (fun a => !(decide ("snapshot" ∈ a.tags))) :=
      List.mem_filter.mpr ⟨hb, by simpa using hbtags⟩
    have hbs : b ∈ (archives.filter (fun a => !(decide ("snapshot" ∈ a.tags)))).mergeSort
        timeLe := hperm.mem_iff.mpr hbf
    rcases pairwise_last_rel _ a hpw hlast b hbs with hba | hba
    · subst hba
      exact le_refl _
    · exact of_decide_eq_true hba

/-! ### Claims -/

/-- C1: with no explicit id, the restore driver selects the archive obtained
by dropping every archive tagged "snapshot", sorting the rest ascending by
creation-timestamp string, and taking the last element.  First conjunct: on
the set a:T1 untagged, b:T2 tagged snapshot, c:T3 untagged with T1<T2<T3 it
issues exactly one restore command, for id "c".  Second conjunct: in general
the selected id belongs to an archive of the listing that is not tagged
"snapshot" and whose timestamp is greatest among those. -/
theorem restore_selects_latest_nonsnapshot (flags : List String)
    (tmpdir T1 T2 T3 : String) (h12 : T1 < T2) (h23 : T2 < T3) :
    (Restic.restore flags tmpdir none
        [⟨"a", T1, []⟩, ⟨"b", T2, ["snapshot"]⟩, ⟨"c", T3, []⟩]
      = ([["restic", "restore", "--target", tmpdir] ++ flags ++ ["c"]], none)) ∧
    (∀ (archives : List Archive) (i : String), selectLatest archives = .ok i →
      ∃ a ∈ archives, a.id = i ∧ "snapshot" ∉ a.tags ∧
        ∀ b ∈ archives, "snapshot" ∉ b.tags → b.time ≤ a.time) := by
  constructor
  · have hfilt : ([⟨"a", T1, []⟩, ⟨"b", T2, ["snapshot"]⟩, ⟨"c", T3, []⟩] :
        List Archive).filter (fun a => !(decide ("snapshot" ∈ a.tags)))
        = [⟨"a", T1, []⟩, ⟨"c", T3, []⟩] := by
      simp [List.filter]
    have hAC : timeLe ⟨"a", T1, []⟩ ⟨"c", T3, []⟩ = true :=
      decide_eq_true (le_of_lt (lt_trans h12 h23))
    have hsorted : List.Pairwise (fun x y => timeLe x y = true)
        ([⟨"a", T1, []⟩, ⟨"c", T3, []⟩] : List Archive) := by
      refine List.Pairwise.cons ?_ ?_
      · intro y hy
        rw [List.mem_singleton] at hy
        subst hy
        exact hAC
      · exact List.pairwise_singleton _ _
    have hms : ([⟨"a", T1, []⟩, ⟨"c", T3, []⟩] : List Archive).mergeSort timeLe
        = [⟨"a", T1, []⟩, ⟨"c", T3, []⟩] :=
      List.mergeSort_of_sorted hsorted
    have hsel : selectLatest [⟨"a", T1, []⟩, ⟨"b", T2, ["snapshot"]⟩, ⟨"c", T3, []⟩]
        = .ok "c" := by
      unfold selectLatest
      rw [hfilt, hms]
      rfl
    unfold Restic.restore
    rw [hsel]
    rfl
  · exact selectLatest_spec

/-- Witness for C1 at concrete timestamps. -/
theorem restore_selects_latest_nonsnapshot_witness :
    Restic.restore [] "/tmp/x" none
        [⟨"a", "2024-01-01", []⟩, ⟨"b", "2024-01-02", ["snapshot"]⟩,
         ⟨"c", "2024-01-03", []⟩]
      = ([["restic", "restore", "--target", "/tmp/x", "c"]], none) :=
  (restore_selects_latest_nonsnapshot [] "/tmp/x" "2024-01-01" "2024-01-02"
    "2024-01-03" (by rw [String.lt_iff_toList_lt]; decide)
    (by rw [String.lt_iff_toList_lt]; decide)).1

/-- C2: when every listed archive carries the tag "snapshot", the filtered
set is empty, the restore driver raises the IndexError of the subscript
archives[-1] (the failure the specification names NoArchiveError), and no
restore command is issued. -/
theorem restore_all_snapshot_fails (flags : List String) (tmpdir : String)
    (archives : List Archive) (h : ∀ a ∈ archives, "snapshot" ∈ a.tags) :
    Restic.restore flags tmpdir none archives = ([], some .indexError) := by
  have hfilt : archives.filter (fun a => !(decide ("snapshot" ∈ a.tags))) = [] := by
    rw [List.filter_eq_nil_iff]
    intro a ha
    simpa using h a ha
  have hsel : selectLatest archives = .error .indexError := by
    unfold selectLatest
    rw [hfilt, List.mergeSort_nil]
    rfl
  unfold Restic.restore
  rw [hsel]

/-- Witness for C2 on a one-element, snapshot-tagged listing. -/
theorem restore_all_snapshot_fails_witness :
    Restic.restore ["-v"] "/tmp/x" none [⟨"a", "2024-01-01", ["snapshot"]⟩]
      = ([], some .indexError) :=
  restore_all_snapshot_fails ["-v"] "/tmp/x" [⟨"a", "2024-01-01", ["snapshot"]⟩]
    (by decide)

/-- Shared helper: whenever RESTIC_EZ_CONFIG is present in the environment,
the source-selection code reaches the subscript on the unbound name `env` and
raises NameError. -/
theorem loadSource_of_env_set (ctx : Config.LoadCtx)
    (h : (findKey ctx.environ "RESTIC_EZ_CONFIG").isSome) :
    Config.loadSource ctx = .error (.nameError "env") := by
  unfold Config.loadSource
  rw [if_pos h]

/-- C3 (code defect): the claim says the value of RESTIC_EZ_CONFIG is parsed
as JSON and becomes the configuration, but whenever that variable is present
loading raises NameError for the unbound name `env` (src line 89 reads
`os.environ[env]` although the parameter is named `env_json`); the second
conjunct records the part of the claim the code does satisfy: with all three
sources absent loading fails with the no-configuration RuntimeError. -/
theorem config_load_env_json_crashes :
    (∀ ctx : Config.LoadCtx, (findKey ctx.environ "RESTIC_EZ_CONFIG").isSome →
      Config.loadSource ctx = .error (.nameError "env")) ∧
    (∀ ctx : Config.LoadCtx, findKey ctx.environ "RESTIC_EZ_CONFIG" = none →
      findKey ctx.environ "RESTIC_EZ_CONFIG_FILE" = none →
      findKey ctx.globalVars "CONFIG" = none →
      Config.loadSource ctx =
        .error (.runtimeError "No configuration in environment or global namespace")) := by
  constructor
  · exact loadSource_of_env_set
  · intro ctx h1 h2 h3
    unfold Config.loadSource
    rw [h1, h2, h3]
    rfl

/-- Witness for C3: the failing input is an environment carrying inline JSON
in RESTIC_EZ_CONFIG; the second part exercises the no-source error. -/
theorem config_load_env_json_crashes_witness :
    Config.loadSource ⟨[("RESTIC_EZ_CONFIG", "\x7b\x7d")], fun _ => none, [], fun _ => none⟩
      = .error (.nameError "env") ∧
    Config.loadSource ⟨[], fun _ => none, [], fun _ => none⟩
      = .error (.runtimeError "No configuration in environment or global namespace") :=
  ⟨config_load_env_json_crashes.1 _ (by rfl),
   config_load_env_json_crashes.2 _ rfl rfl rfl⟩

/-- C5: the flags accessor of a configuration whose restic section is an
object returns the stored flags_<context> entry when present and the empty
sequence when the key is absent; neither case is an error. -/
theorem get_restic_flags_spec (doc : JVal) (skvs : List (String × JVal))
    (context : String) (h : getItem doc "restic" = .ok (.obj skvs)) :
    (findKey skvs ("flags_" ++ context) = none →
      Config.get_restic_flags doc context = .ok (.arr [])) ∧
    (∀ v, findKey skvs ("flags_" ++ context) = some v →
      Config.get_restic_flags doc context = .ok v) := by
  constructor
  · intro hnone
    unfold Config.get_restic_flags
    rw [h]
    dsimp only
    rw [hnone]
  · intro v hv
    unfold Config.get_restic_flags
    rw [h]
    dsimp only
    rw [hv]

/-- Witness for C5 on a configuration with one stored flag set: the backup
context returns the stored sequence, an absent context the empty one. -/
theorem get_restic_flags_spec_witness :
    Config.get_restic_flags
        (.obj [("restic", .obj [("flags_backup", .arr ["-x"])])]) "restore"
      = .ok (.arr []) ∧
    Config.get_restic_flags
        (.obj [("restic", .obj [("flags_backup", .arr ["-x"])])]) "backup"
      = .ok (.arr ["-x"]) :=
  ⟨(get_restic_flags_spec (.obj [("restic", .obj [("flags_backup", .arr ["-x"])])])
      [("flags_backup", .arr ["-x"])] "restore" rfl).1 rfl,
   (get_restic_flags_spec (.obj [("restic", .obj [("flags_backup", .arr ["-x"])])])
      [("flags_backup", .arr ["-x"])] "backup" rfl).2 _ rfl⟩

/-- C6: on every configuration document holding the required fields, the
environment builder returns exactly the six fixed keys, mapping
RESTIC_EZ_CONFIG to the re-serialized document, DIRECTORY to the directory
field, RESTIC_PASSWORD and RESTIC_REPOSITORY to the restic section
credentials, and the AWS key pair to the s3 section credentials; it is a
pure function of the document and the serializer and performs no mutation. -/
theorem env_exact_mapping (dumps : JVal → String)
    (doc restic s3 dir rpass rrepo s3user s3pass : JVal)
    (h1 : getItem doc "directory" = .ok dir)
    (h2 : getItem doc "restic" = .ok restic)
    (h3 : getItem restic "pass" = .ok rpass)
    (h4 : getItem restic "repo" = .ok rrepo)
    (h5 : getItem doc "s3" = .ok s3)
    (h6 : getItem s3 "user" = .ok s3user)
    (h7 : getItem s3 "pass" = .ok s3pass) :
    Config.env dumps doc =
      .ok [("RESTIC_EZ_CONFIG", .str (dumps doc)),
           ("DIRECTORY", dir),
           ("RESTIC_PASSWORD", rpass),
           ("RESTIC_REPOSITORY", rrepo),
           ("AWS_ACCESS_KEY_ID", s3user),
           ("AWS_SECRET_ACCESS_KEY", s3pass)] := by
  simp only [Config.env, h1, h2, h3, h4, h5, h6, h7]

/-- Witness for C6 on the concrete end-to-end configuration of the spec. -/
theorem env_exact_mapping_witness :
    Config.env (fun _ => "serialized")
        (.obj [("directory", .str "/d"),
               ("restic", .obj [("pass", .str "p"), ("repo", .str "r")]),
               ("s3", .obj [("user", .str "u"), ("pass", .str "p2")])])
      = .ok [("RESTIC_EZ_CONFIG", .str "serialized"),
             ("DIRECTORY", .str "/d"),
             ("RESTIC_PASSWORD", .str "p"),
             ("RESTIC_REPOSITORY", .str "r"),
             ("AWS_ACCESS_KEY_ID", .str "u"),
             ("AWS_SECRET_ACCESS_KEY", .str "p2")] :=
  env_exact_mapping (fun _ => "serialized") _ _ _ _ _ _ _ _
    rfl rfl rfl rfl rfl rfl rfl

/-- C7 (code defect): the claimed round trip never succeeds.  For every
resolution world, serialized document value and remaining environment,
loading a configuration while RESTIC_EZ_CONFIG is present in the environment
raises NameError for the unbound name `env` before any parse, prompt or
secret command, instead of succeeding as the claim states. -/
theorem roundtrip_reload_crashes (ext : Ext) (serialized : String)
    (rest : List (String × String)) (files : String → Option String)
    (globs : List (String × String)) (loads : String → Option JVal) :
    Config.init ⟨("RESTIC_EZ_CONFIG", serialized) :: rest, files, globs, loads⟩ ext
      = .error (.nameError "env") := by
  unfold Config.init
  rw [loadSource_of_env_set _ (by simp [findKey])]

/-- C8: when the managed directory exists and the user declines the delete
confirmation, the workflow stops with the RuntimeError the specification
names UserCancelledError; the trace is exactly the snapshot info dialog, the
snapshot creation and the confirmation dialog, so the managed directory is
never removed or modified and no delete, restore or relocation step executes
after the decline. -/
theorem restore_decline_cancels (dir : String) (ctx : RestoreCtx)
    (hex : ctx.dirExists = true) (hcr : ctx.createOk = true)
    (hco : ctx.confirmDelete = false) :
    restoreWorkflow dir ctx =
      ⟨[.infoDialog "Creating snapshot archive...",
        .resticCreate ["snapshot"],
        .confirmDialog ("Delete \"" ++ dir ++ "\"?")],
       some (.runtimeError "Action cancelled by user")⟩ ∧
    ∀ e ∈ (restoreWorkflow dir ctx).trace,
      (∀ p, e ≠ .rmtree p) ∧ (∀ s d, e ≠ .move s d) ∧
      (∀ t i, e ≠ .resticRestore t i) := by
  have hmain : restoreWorkflow dir ctx =
      ⟨[.infoDialog "Creating snapshot archive...",
        .resticCreate ["snapshot"],
        .confirmDialog ("Delete \"" ++ dir ++ "\"?")],
       some (.runtimeError "Action cancelled by user")⟩ := by
    simp [restoreWorkflow, hex, hcr, hco]
  refine ⟨hmain, ?_⟩
  rw [hmain]
  intro e he
  simp only [List.mem_cons, List.not_mem_nil, or_false] at he
  rcases he with rfl | rfl | rfl <;>
    exact ⟨fun p => nofun, fun s d => nofun, fun t i => nofun⟩

/-- Witness for C8: directory present, archive creation succeeds, user
declines. -/
theorem restore_decline_cancels_witness :
    restoreWorkflow "/d" ⟨true, false, [], true, true⟩ =
      ⟨[.infoDialog "Creating snapshot archive...",
        .resticCreate ["snapshot"],
        .confirmDialog ("Delete \"" ++ "/d" ++ "\"?")],
       some (.runtimeError "Action cancelled by user")⟩ :=
  (restore_decline_cancels "/d" ⟨true, false, [], true, true⟩ rfl rfl rfl).1

/-- C9: when the managed directory is absent, snapshot creation and the
confirmation and delete steps are skipped entirely: the run goes straight to
restoring the latest archive (id selected with no explicit id) into the
staging target formed by appending ".restic-restore" to the managed directory
path, then moves the restored subtree into the managed directory location and
removes the staging tree. -/
theorem restore_absent_dir_skips (dir : String) (ctx : RestoreCtx) (i : String)
    (hex : ctx.dirExists = false) (hsel : selectLatest ctx.archives = .ok i)
    (hok : ctx.restoreOk = true) :
    restoreWorkflow dir ctx =
      ⟨[.infoDialog "Restoring latest archive (this may take some time)...",
        .resticRestore (dir ++ ".restic-restore") i,
        .infoDialog "Moving restored directory into final location...",
        .move (dir ++ ".restic-restore/" ++ dir) dir,
        .rmtree (dir ++ ".restic-restore")], none⟩ := by
  simp [restoreWorkflow, restoreTail, hex, hsel, hok]

/-- Witness for C9 with a single untagged archive in the repository. -/
theorem restore_absent_dir_skips_witness :
    restoreWorkflow "/d" ⟨false, true, [⟨"a", "2024-01-01", []⟩], true, true⟩ =
      ⟨[.infoDialog "Restoring latest archive (this may take some time)...",
        .resticRestore ("/d" ++ ".restic-restore") "a",
        .infoDialog "Moving restored directory into final location...",
        .move ("/d" ++ ".restic-restore/" ++ "/d") "/d",
        .rmtree ("/d" ++ ".restic-restore")], none⟩ :=
  restore_absent_dir_skips "/d" ⟨false, true, [⟨"a", "2024-01-01", []⟩], true, true⟩
    "a" rfl (by simp [selectLatest]) rfl

/-- C10: whenever the managed directory exists and the snapshot backup
succeeds, the snapshot-tagged archive is created strictly before the delete
confirmation dialog appears in the trace; hence on a declined confirmation
the run aborts with the user-cancelled RuntimeError even though the archive
tagged "snapshot" has already been created. -/
theorem snapshot_created_before_confirm (dir : String) (ctx : RestoreCtx)
    (hex : ctx.dirExists = true) (hcr : ctx.createOk = true) :
    (∃ rest, (restoreWorkflow dir ctx).trace =
        .infoDialog "Creating snapshot archive..." :: .resticCreate ["snapshot"] ::
        .confirmDialog ("Delete \"" ++ dir ++ "\"?") :: rest) ∧
    (ctx.confirmDelete = false →
      (restoreWorkflow dir ctx).err = some (.runtimeError "Action cancelled by user") ∧
      .resticCreate ["snapshot"] ∈ (restoreWorkflow dir ctx).trace) := by
  constructor
  · cases hco : ctx.confirmDelete with
    | true =>
      refine ⟨WEvent.rmtree dir :: (restoreTail dir ctx).trace, ?_⟩
      simp [restoreWorkflow, hex, hcr, hco]
    | false =>
      refine ⟨[], ?_⟩
      simp [restoreWorkflow, hex, hcr, hco]
  · intro hco
    constructor
    · simp [restoreWorkflow, hex, hcr, hco]
    · simp [restoreWorkflow, hex, hcr, hco]

/-- Witness for C10: directory present, snapshot creation succeeds, user
declines; the snapshot-creation event is in the trace although the run
aborts cancelled. -/
theorem snapshot_created_before_confirm_witness :
    (∃ rest, (restoreWorkflow "/d" ⟨true, false, [], true, true⟩).trace =
        .infoDialog "Creating snapshot archive..." :: .resticCreate ["snapshot"] ::
        .confirmDialog ("Delete \"" ++ "/d" ++ "\"?") :: rest) ∧
    ((restoreWorkflow "/d" ⟨true, false, [], true, true⟩).err =
        some (.runtimeError "Action cancelled by user") ∧
      .resticCreate ["snapshot"] ∈
        (restoreWorkflow "/d" ⟨true, false, [], true, true⟩).trace) :=
  ⟨(snapshot_created_before_confirm "/d" ⟨true, false, [], true, true⟩ rfl rfl).1,
   (snapshot_created_before_confirm "/d" ⟨true, false, [], true, true⟩ rfl rfl).2 rfl⟩

/-- Reading through a section whose entry is a known object. -/
theorem getPath_obj (kvs skvs : List (String × JVal)) (sec name : String)
    (hsec : findKey kvs sec = some (.obj skvs)) :
    getPath (.obj kvs) sec name = findKey skvs name := by
  simp only [getPath, hsec]

/-- Exhaustive case analysis of a successful `eval_field` run: the document
is an object, the section entry is an object, and the run took the
field-present branch, the secret-command branch, or the prompt branch. -/
theorem eval_field_cases (ext : Ext) (doc d2 : JVal) (sec name : String)
    (evs : List Event) (h : Config.eval_field ext doc sec name = .ok (d2, evs)) :
    ∃ kvs skvs, doc = .obj kvs ∧ findKey kvs sec = some (.obj skvs) ∧
      (((findKey skvs name).isSome = true ∧ d2 = .obj kvs ∧ evs = []) ∨
       (∃ cmd out, findKey skvs name = none ∧
          findKey skvs (name ++ "_command") = some (.str cmd) ∧
          ext.shellOutput cmd = some out ∧
          d2 = .obj (setKey kvs sec (.obj (setKey skvs name (.str out.trim)))) ∧
          evs = [.shellCmd cmd]) ∨
       (∃ v, findKey skvs name = none ∧
          findKey skvs (name ++ "_command") = none ∧
          ext.userInput ("Enter value for \"" ++ sec ++ "->" ++ name ++ "\":") = some v ∧
          d2 = .obj (setKey kvs sec (.obj (setKey skvs name (.str v)))) ∧
          evs = [.inputDialog ("Enter value for \"" ++ sec ++ "->" ++ name ++ "\":")])) := by
  cases doc with
  | str s => simp [Config.eval_field] at h
  | arr xs => simp [Config.eval_field] at h
  | obj kvs =>
    simp only [Config.eval_field] at h
    refine ⟨kvs, ?_⟩
    split at h
    · rename_i skvs hsec
      refine ⟨skvs, rfl, hsec, ?_⟩
      by_cases hname : (findKey skvs name).isSome = true
      · rw [if_pos hname] at h
        simp only [Except.ok.injEq, Prod.mk.injEq] at h
        exact Or.inl ⟨hname, h.1.symm, h.2.symm⟩
      · rw [if_neg hname] at h
        have hnone : findKey skvs name = none := by
          cases hfk : findKey skvs name
          · rfl
          · rw [hfk] at hname
            simp at hname
        split at h
        · rename_i cmd hcmd
          split at h
          · rename_i out hout
            simp only [Except.ok.injEq, Prod.mk.injEq] at h
            exact Or.inr (Or.inl ⟨cmd, out, hnone, hcmd, hout, h.1.symm, h.2.symm⟩)
          · simp at h
        · simp at h
        · rename_i hcmd
          split at h
          · rename_i v hinp
            simp only [Except.ok.injEq, Prod.mk.injEq] at h
            exact Or.inr (Or.inr ⟨v, hnone, hcmd, hinp, h.1.symm, h.2.symm⟩)
          · simp at h
    · simp at h
    · simp at h

/-- After a successful `eval_field` on a well-typed document, the evaluated
field is present as a string literal. -/
theorem eval_field_secret_str (ext : Ext) (doc d2 : JVal) (sec name : String)
    (evs : List Event) (h : Config.eval_field ext doc sec name = .ok (d2, evs))
    (hwf : isStrOpt (getPath doc sec name) = true) :
    ∃ s, getPath d2 sec name = some (.str s) := by
  obtain ⟨kvs, skvs, rfl, hsec, hcase⟩ := eval_field_cases ext _ d2 sec name evs h
  rw [getPath_obj kvs skvs sec name hsec] at hwf
  rcases hcase with ⟨hpres, rfl, -⟩ | ⟨cmd, out, hn, hc, ho, rfl, -⟩ | ⟨v, hn, hc, hi, rfl, -⟩
  · rw [getPath_obj kvs skvs sec name hsec]
    cases hfk : findKey skvs name with
    | none =>
      rw [hfk] at hpres
      simp at hpres
    | some w =>
      rw [hfk] at hwf
      cases w with
      | str s => exact ⟨s, rfl⟩
      | arr xs => simp [isStrOpt] at hwf
      | obj o => simp [isStrOpt] at hwf
  · refine ⟨out.trim, ?_⟩
    rw [getPath_obj _ (setKey skvs name (.str out.trim)) sec name
      (findKey_setKey_self kvs sec (.obj (setKey skvs name (.str out.trim))))]
    exact findKey_setKey_self skvs name (.str out.trim)
  · refine ⟨v, ?_⟩
    rw [getPath_obj _ (setKey skvs name (.str v)) sec name
      (findKey_setKey_self kvs sec (.obj (setKey skvs name (.str v))))]
    exact findKey_setKey_self skvs name (.str v)

/-- `eval_field` touches only its own section: every read through a different
section is unchanged. -/
theorem eval_field_other_sections (ext : Ext) (doc d2 : JVal) (sec name : String)
    (evs : List Event) (h : Config.eval_field ext doc sec name = .ok (d2, evs))
    (sec2 name2 : String) (hne : sec2 ≠ sec) :
    getPath d2 sec2 name2 = getPath doc sec2 name2 := by
  obtain ⟨kvs, skvs, rfl, hsec, hcase⟩ := eval_field_cases ext _ d2 sec name evs h
  rcases hcase with ⟨-, rfl, -⟩ | ⟨cmd, out, -, -, -, rfl, -⟩ | ⟨v, -, -, -, rfl, -⟩
  · rfl
  · simp only [getPath]
    rw [findKey_setKey_ne kvs sec sec2 _ (Ne.symm hne)]
  · simp only [getPath]
    rw [findKey_setKey_ne kvs sec sec2 _ (Ne.symm hne)]

/-- C4: resolution of each secret field after parse follows exactly the
three-way rule of `_eval_field` — an already present literal leaves the
document unchanged with no external interaction; otherwise a present
<field>_command entry is run through the shell once and its trimmed stdout
stored; otherwise one input dialog supplies the value — and after the two
resolution calls of the constructor complete on a document whose secret
fields, when present, are strings, both restic.pass and s3.pass are present
as string literals. -/
theorem secret_field_resolution :
    (∀ (ext : Ext) (kvs skvs : List (String × JVal)) (sec name : String),
      findKey kvs sec = some (.obj skvs) →
      (findKey skvs name).isSome = true →
      Config.eval_field ext (.obj kvs) sec name = .ok (.obj kvs, [])) ∧
    (∀ (ext : Ext) (kvs skvs : List (String × JVal)) (sec name cmd out : String),
      findKey kvs sec = some (.obj skvs) →
      findKey skvs name = none →
      findKey skvs (name ++ "_command") = some (.str cmd) →
      ext.shellOutput cmd = some out →
      Config.eval_field ext (.obj kvs) sec name =
        .ok (.obj (setKey kvs sec (.obj (setKey skvs name (.str out.trim)))),
             [.shellCmd cmd])) ∧
    (∀ (ext : Ext) (kvs skvs : List (String × JVal)) (sec name v : String),
      findKey kvs sec = some (.obj skvs) →
      findKey skvs name = none →
      findKey skvs (name ++ "_command") = none →
      ext.userInput ("Enter value for \"" ++ sec ++ "->" ++ name ++ "\":") = some v →
      Config.eval_field ext (.obj kvs) sec name =
        .ok (.obj (setKey kvs sec (.obj (setKey skvs name (.str v)))),
             [.inputDialog ("Enter value for \"" ++ sec ++ "->" ++ name ++ "\":")])) ∧
    (∀ (ext : Ext) (doc d2 : JVal) (evs : List Event),
      isStrOpt (getPath doc "restic" "pass") = true →
      isStrOpt (getPath doc "s3" "pass") = true →
      Config.resolveSecrets ext doc = .ok (d2, evs) →
      (∃ s, getPath d2 "restic" "pass" = some (.str s)) ∧
      (∃ s, getPath d2 "s3" "pass" = some (.str s))) := by
  refine ⟨?_, ?_, ?_, ?_⟩
  · intro ext kvs skvs sec name hsec hpres
    simp only [Config.eval_field]
    rw [hsec]
    dsimp only
    rw [if_pos hpres]
  · intro ext kvs skvs sec name cmd out hsec hn hcmd hout
    simp only [Config.eval_field]
    rw [hsec]
    dsimp only
    simp [hn, hcmd, hout]
  · intro ext kvs skvs sec name v hsec hn hcmd hinp
    simp only [Config.eval_field]
    rw [hsec]
    dsimp only
    simp [hn, hcmd, hinp]
  · intro ext doc d2 evs hwf1 hwf2 hres
    unfold Config.resolveSecrets at hres
    cases h1 : Config.eval_field ext doc "restic" "pass" with
    | error e =>
      rw [h1] at hres
      simp at hres
    | ok p1 =>
      obtain ⟨d1, e1⟩ := p1
      rw [h1] at hres
      dsimp only at hres
      cases h2 : Config.eval_field ext d1 "s3" "pass" with
      | error e =>
        rw [h2] at hres
        simp at hres
      | ok p2 =>
        obtain ⟨dd, e2⟩ := p2
        rw [h2] at hres
        dsimp only at hres
        simp only [Except.ok.injEq, Prod.mk.injEq] at hres
        obtain ⟨hd, -⟩ := hres
        subst hd
        obtain ⟨s1, hs1⟩ := eval_field_secret_str ext doc d1 "restic" "pass" e1 h1 hwf1
        have hkeep1 : getPath d1 "s3" "pass" = getPath doc "s3" "pass" :=
          eval_field_other_sections ext doc d1 "restic" "pass" e1 h1 "s3" "pass"
            (by decide)
        have hwf2b : isStrOpt (getPath d1 "s3" "pass") = true := by
          rw [hkeep1]
          exact hwf2
        obtain ⟨s2, hs2⟩ := eval_field_secret_str ext d1 dd "s3" "pass" e2 h2 hwf2b
        have hkeep2 : getPath dd "restic" "pass" = getPath d1 "restic" "pass" :=
          eval_field_other_sections ext d1 dd "s3" "pass" e2 h2 "restic" "pass"
            (by decide)
        exact ⟨⟨s1, by rw [hkeep2, hs1]⟩, ⟨s2, hs2⟩⟩

/-- Witness for C4: one concrete document per branch, and the constructor
postcondition on a fully resolved document. -/
theorem secret_field_resolution_witness :
    (Config.eval_field ⟨fun _ => some " out ", fun _ => some "typed"⟩
        (.obj [("restic", .obj [("pass", .str "p")])]) "restic" "pass"
      = .ok (.obj [("restic", .obj [("pass", .str "p")])], [])) ∧
    (Config.eval_field ⟨fun _ => some " out ", fun _ => some "typed"⟩
        (.obj [("restic", .obj [("pass_command", .str "echo p")])]) "restic" "pass"
      = .ok (.obj (setKey [("restic", .obj [("pass_command", .str "echo p")])] "restic"
               (.obj (setKey [("pass_command", .str "echo p")] "pass"
                 (.str (" out ").trim)))),
             [.shellCmd "echo p"])) ∧
    (Config.eval_field ⟨fun _ => some " out ", fun _ => some "typed"⟩
        (.obj [("s3", .obj [("user", .str "u")])]) "s3" "pass"
      = .ok (.obj (setKey [("s3", .obj [("user", .str "u")])] "s3"
               (.obj (setKey [("user", .str "u")] "pass" (.str "typed")))),
             [.inputDialog ("Enter value for \"" ++ "s3" ++ "->" ++ "pass" ++ "\":")])) ∧
    ((∃ s, getPath (.obj [("restic", .obj [("pass", .str "p")]),
                          ("s3", .obj [("pass", .str "q")])]) "restic" "pass"
        = some (.str s)) ∧
     (∃ s, getPath (.obj [("restic", .obj [("pass", .str "p")]),
                          ("s3", .obj [("pass", .str "q")])]) "s3" "pass"
        = some (.str s))) :=
  ⟨secret_field_resolution.1 ⟨fun _ => some " out ", fun _ => some "typed"⟩
      [("restic", .obj [("pass", .str "p")])] [("pass", .str "p")]
      "restic" "pass" rfl rfl,
   secret_field_resolution.2.1 ⟨fun _ => some " out ", fun _ => some "typed"⟩
      [("restic", .obj [("pass_command", .str "echo p")])]
      [("pass_command", .str "echo p")] "restic" "pass" "echo p" " out "
      rfl rfl rfl rfl,
   secret_field_resolution.2.2.1 ⟨fun _ => some " out ", fun _ => some "typed"⟩
      [("s3", .obj [("user", .str "u")])] [("user", .str "u")] "s3" "pass" "typed"
      rfl rfl rfl rfl,
   secret_field_resolution.2.2.2 ⟨fun _ => some " out ", fun _ => some "typed"⟩
      (.obj [("restic", .obj [("pass", .str "p")]), ("s3", .obj [("pass", .str "q")])])
      (.obj [("restic", .obj [("pass", .str "p")]), ("s3", .obj [("pass", .str "q")])])
      [] rfl rfl rfl⟩

end ResticEz
